import Mathlib

/-
Shallow embedding of the kinematics-and-motion core of the 5DOF-Robotic-Arm
firmware, translated from the sources:

  Firmware/IK_Solver_Web_Server_w_Motor_Controller/IK_Solver_Web_Server_w_Motor_Controller.ino
  Firmware/Motor_Controller.ino
  Firmware/Homing_Sequence/Homing_Sequence.ino

C floats are idealised as real numbers: all claims treated here are about the
branch structure and the integer bookkeeping of the code, not about rounding.
C long casts of floats truncate toward zero and are modelled by truncToLong.
The global arrays theta, currentPosition and targetPosition become explicit
Vec5 values threaded through the functions; the global flags motorsEnabled and
isHomed live in explicit state records.
-/

open Real

set_option maxHeartbeats 1000000

/-- Fixed-order 5-element vector mirroring the C arrays indexed 0..4
(base, shoulder, elbow, wristPitch, wristRoll). -/
structure Vec5 (α : Type) where
  i0 : α
  i1 : α
  i2 : α
  i3 : α
  i4 : α
deriving DecidableEq

/-- Apply a function to every component, used for the final angle-wrapping
loop of solveIK which runs over all five entries of theta. -/
def Vec5.map {α β : Type} (f : α → β) (v : Vec5 α) : Vec5 β :=
  ⟨f v.i0, f v.i1, f v.i2, f v.i3, f v.i4⟩

/-- Array indexing for the C arrays modelled by Vec5. -/
def Vec5.get {α : Type} (v : Vec5 α) (i : Fin 5) : α :=
  match i with
  | 0 => v.i0
  | 1 => v.i1
  | 2 => v.i2
  | 3 => v.i3
  | 4 => v.i4

open scoped Classical

noncomputable section

/-- Arduino macro DEG_TO_RAD, idealised as pi over 180. -/
def DEG_TO_RAD : ℝ := Real.pi / 180

/-- Arduino macro RAD_TO_DEG, idealised as 180 over pi. -/
def RAD_TO_DEG : ℝ := 180 / Real.pi

/-- DH parameter L1 (base height, mm), line 48 of the web-server firmware. -/
def L1 : ℝ := 152.5

/-- DH parameter L2 (upper arm length, mm). -/
def L2 : ℝ := 180.0

/-- DH parameter L3 (forearm length, mm). -/
def L3 : ℝ := 180.0

/-- DH parameter L4 (wrist to end-effector length, mm). -/
def L4 : ℝ := 101.0

/-- Joint limit constants, lines 54-58 of the web-server firmware. -/
def JOINT1_MIN : ℝ := -180.0

def JOINT1_MAX : ℝ := 180.0

def JOINT2_MIN : ℝ := -70.0

def JOINT2_MAX : ℝ := 70.0

def JOINT3_MIN : ℝ := -80.0

def JOINT3_MAX : ℝ := 80.0

def JOINT4_MIN : ℝ := -90.0

def JOINT4_MAX : ℝ := 90.0

def JOINT5_MIN : ℝ := -180.0

def JOINT5_MAX : ℝ := 180.0

/-- The C library atan2 over idealised reals: quadrant-corrected arctangent
with range left-open at minus pi and closed at pi. -/
def atan2 (y x : ℝ) : ℝ :=
  if 0 < x then Real.arctan (y / x)
  else if x < 0 ∧ 0 ≤ y then Real.arctan (y / x) + Real.pi
  else if x < 0 ∧ y < 0 then Real.arctan (y / x) - Real.pi
  else if x = 0 ∧ 0 < y then Real.pi / 2
  else if x = 0 ∧ y < 0 then -(Real.pi / 2)
  else 0

/-- First wrapping loop of solveIK, line 317 of the web-server firmware:
while the angle exceeds 180, subtract 360. -/
def wrapDown (a : ℝ) : ℝ :=
  if 180 < a then wrapDown (a - 360) else a
termination_by (⌈(a - 180) / 360⌉).toNat
decreasing_by
  have h1 : (0 : ℝ) < (a - 180) / 360 := div_pos (by linarith) (by norm_num)
  have h2 : 0 < ⌈(a - 180) / 360⌉ := Int.ceil_pos.mpr h1
  have h3 : (a - 360 - 180) / 360 = (a - 180) / 360 - 1 := by ring
  rw [h3, Int.ceil_sub_one]
  omega

/-- Second wrapping loop of solveIK, line 318 of the web-server firmware:
while the angle is below minus 180, add 360. -/
def wrapUp (a : ℝ) : ℝ :=
  if a < -180 then wrapUp (a + 360) else a
termination_by (⌈(-180 - a) / 360⌉).toNat
decreasing_by
  have h1 : (0 : ℝ) < (-180 - a) / 360 := div_pos (by linarith) (by norm_num)
  have h2 : 0 < ⌈(-180 - a) / 360⌉ := Int.ceil_pos.mpr h1
  have h3 : (-180 - (a + 360)) / 360 = (-180 - a) / 360 - 1 := by ring
  rw [h3, Int.ceil_sub_one]
  omega

/-- Both wrapping loops in source order: the subtracting loop runs to
completion, then the adding loop. -/
def wrap180 (a : ℝ) : ℝ := wrapUp (wrapDown a)

/-- Wrist-center x coordinate, line 252 of the web-server firmware. -/
def wcX (x y pitch_deg : ℝ) : ℝ :=
  x - L4 * Real.cos (atan2 y x) * Real.cos (pitch_deg * DEG_TO_RAD)

/-- Wrist-center y coordinate, line 253. -/
def wcY (x y pitch_deg : ℝ) : ℝ :=
  y - L4 * Real.sin (atan2 y x) * Real.cos (pitch_deg * DEG_TO_RAD)

/-- Wrist-center z coordinate, line 254. -/
def wcZ (z pitch_deg : ℝ) : ℝ :=
  z - L4 * Real.sin (pitch_deg * DEG_TO_RAD)

/-- Local r of solveIK, line 256: planar distance of the wrist center. -/
def rDist (x y pitch_deg : ℝ) : ℝ :=
  Real.sqrt (wcX x y pitch_deg * wcX x y pitch_deg +
    wcY x y pitch_deg * wcY x y pitch_deg)

/-- Local h of solveIK, line 257: wrist-center height above the shoulder. -/
def hDist (z pitch_deg : ℝ) : ℝ := wcZ z pitch_deg - L1

/-- Local d of solveIK, line 258: shoulder-to-wrist-center distance. -/
def dDist (x y z pitch_deg : ℝ) : ℝ :=
  Real.sqrt (rDist x y pitch_deg * rDist x y pitch_deg +
    hDist z pitch_deg * hDist z pitch_deg)

/-- Law-of-cosines argument for the shoulder, line 265. -/
def cos_angle2 (x y z pitch_deg : ℝ) : ℝ :=
  (L2 * L2 + dDist x y z pitch_deg * dDist x y z pitch_deg - L3 * L3) /
    (2 * L2 * dDist x y z pitch_deg)

/-- Local angle2 of solveIK, line 271. -/
def angle2 (x y z pitch_deg : ℝ) : ℝ := Real.arccos (cos_angle2 x y z pitch_deg)

/-- Local alpha of solveIK, line 272. -/
def alphaAng (x y z pitch_deg : ℝ) : ℝ :=
  atan2 (hDist z pitch_deg) (rDist x y pitch_deg)

/-- Law-of-cosines argument for the elbow, line 277. -/
def cos_angle3 (x y z pitch_deg : ℝ) : ℝ :=
  (L2 * L2 + L3 * L3 - dDist x y z pitch_deg * dDist x y z pitch_deg) /
    (2 * L2 * L3)

/-- Elbow-up shoulder candidate, line 275. -/
def theta2_up (x y z pitch_deg : ℝ) : ℝ :=
  (alphaAng x y z pitch_deg + angle2 x y z pitch_deg) * RAD_TO_DEG

/-- Elbow-up elbow candidate, line 283. -/
def theta3_up (x y z pitch_deg : ℝ) : ℝ :=
  (Real.pi - Real.arccos (cos_angle3 x y z pitch_deg)) * RAD_TO_DEG

/-- Elbow-up wrist-pitch candidate, lines 284-285. -/
def theta4_up (x y z pitch_deg : ℝ) : ℝ :=
  pitch_deg - (theta2_up x y z pitch_deg - theta3_up x y z pitch_deg)

/-- Elbow-down shoulder candidate, line 292. -/
def theta2_down (x y z pitch_deg : ℝ) : ℝ :=
  (alphaAng x y z pitch_deg - angle2 x y z pitch_deg) * RAD_TO_DEG

/-- Elbow-down elbow candidate, line 293. -/
def theta3_down (x y z pitch_deg : ℝ) : ℝ :=
  -((Real.pi - Real.arccos (cos_angle3 x y z pitch_deg)) * RAD_TO_DEG)

/-- Elbow-down wrist-pitch candidate, lines 294-295. -/
def theta4_down (x y z pitch_deg : ℝ) : ℝ :=
  pitch_deg - (theta2_down x y z pitch_deg - theta3_down x y z pitch_deg)

/-- Joint-limit test of the elbow-up candidate, lines 287-289. -/
def elbowUpValid (x y z pitch_deg : ℝ) : Prop :=
  (JOINT2_MIN ≤ theta2_up x y z pitch_deg ∧ theta2_up x y z pitch_deg ≤ JOINT2_MAX) ∧
  (JOINT3_MIN ≤ theta3_up x y z pitch_deg ∧ theta3_up x y z pitch_deg ≤ JOINT3_MAX) ∧
  (JOINT4_MIN ≤ theta4_up x y z pitch_deg ∧ theta4_up x y z pitch_deg ≤ JOINT4_MAX)

/-- Joint-limit test of the elbow-down candidate, lines 297-299. -/
def elbowDownValid (x y z pitch_deg : ℝ) : Prop :=
  (JOINT2_MIN ≤ theta2_down x y z pitch_deg ∧ theta2_down x y z pitch_deg ≤ JOINT2_MAX) ∧
  (JOINT3_MIN ≤ theta3_down x y z pitch_deg ∧ theta3_down x y z pitch_deg ≤ JOINT3_MAX) ∧
  (JOINT4_MIN ≤ theta4_down x y z pitch_deg ∧ theta4_down x y z pitch_deg ≤ JOINT4_MAX)

/-- Failure classification of solveIK; the source reports these as the
strings written to lastSolveError at lines 261, 267, 279 and 310. -/
inductive IKErr
  | unreachable
  | invalidGeometryShoulder
  | invalidGeometryElbow
  | jointLimitExceeded
deriving DecidableEq

/-- Observable outcome of one solveIK call: the post-call global theta array,
the returned bool, and the post-call lastSolveError (none models the empty
string written on success at line 321). -/
structure IKOut where
  theta : Vec5 ℝ
  success : Bool
  lastSolveError : Option IKErr
deriving DecidableEq

/-- solveIK, lines 246-323 of the web-server firmware. The global array theta
is passed in as prevTheta and returned updated. Line 250 writes theta index 0
before any failure check; the failure returns at lines 263, 269, 281 and 311
leave the remaining entries of theta untouched. On success all five entries
are assigned and then wrapped by the loops at lines 316-319. -/
def solveIK (prevTheta : Vec5 ℝ) (x y z pitch_deg roll_deg : ℝ) : IKOut :=
  let th0 := atan2 y x * RAD_TO_DEG
  let thFail : Vec5 ℝ := { prevTheta with i0 := th0 }
  if dDist x y z pitch_deg > (L2 + L3) ∨ dDist x y z pitch_deg < |L2 - L3| then
    ⟨thFail, false, some .unreachable⟩
  else if cos_angle2 x y z pitch_deg < -1.0 ∨ cos_angle2 x y z pitch_deg > 1.0 then
    ⟨thFail, false, some .invalidGeometryShoulder⟩
  else if cos_angle3 x y z pitch_deg < -1.0 ∨ cos_angle3 x y z pitch_deg > 1.0 then
    ⟨thFail, false, some .invalidGeometryElbow⟩
  else if elbowUpValid x y z pitch_deg then
    ⟨Vec5.map wrap180 ⟨th0, theta2_up x y z pitch_deg, theta3_up x y z pitch_deg,
      theta4_up x y z pitch_deg, roll_deg⟩, true, none⟩
  else if elbowDownValid x y z pitch_deg then
    ⟨Vec5.map wrap180 ⟨th0, theta2_down x y z pitch_deg, theta3_down x y z pitch_deg,
      theta4_down x y z pitch_deg, roll_deg⟩, true, none⟩
  else
    ⟨thFail, false, some .jointLimitExceeded⟩

/-- JSON payload of the /solve handler, lines 1295-1345 of the web-server
firmware: the success flag, the error field (present only on failure), and
the five serialized entries of the global theta array as they stand after the
solveIK call. The two-decimal string formatting of line 1319 is abstracted to
the real value itself. -/
structure SolveResponse where
  success : Bool
  error : Option IKErr
  angles : Vec5 ℝ

/-- handleSolve, restricted to what it serializes from the solver state. -/
def handleSolve (prevTheta : Vec5 ℝ) (x y z pitch_deg roll_deg : ℝ) : SolveResponse :=
  let r := solveIK prevTheta x y z pitch_deg roll_deg
  ⟨r.success, if r.success then none else r.lastSolveError, r.theta⟩

end

/-- Motor configuration constant STEPS_PER_REV, line 40. -/
def STEPS_PER_REV : ℕ := 200

/-- Gear reduction constant of the harmonic-drive joints, line 41 of the
web-server firmware (spelled with RATIO in the source). -/
def HARMONIC_REDUCTION : ℕ := 25

/-- Global array currentMicrosteps, line 42: initialised to 16 for every
motor and never reassigned in the modelled firmware. -/
def currentMicrosteps : Vec5 ℕ := ⟨16, 16, 16, 16, 16⟩

noncomputable section

/-- The C cast (long)(x) applied to a float: truncation toward zero. -/
def truncToLong (r : ℝ) : ℤ := if 0 ≤ r then ⌊r⌋ else ⌈r⌉

/-- The local variable stepsPerDegree of degreesToSteps, lines 181-182 of the
web-server firmware: native steps per revolution times the microstep
multiplier over 360, times the gear reduction for harmonic-drive joints. -/
def stepsPerDegree (harmonicDrive : Bool) (motorIndex : Fin 5) : ℝ :=
  let base : ℝ := ((STEPS_PER_REV : ℝ) * (currentMicrosteps.get motorIndex : ℝ)) / 360
  if harmonicDrive then base * (HARMONIC_REDUCTION : ℝ) else base

/-- degreesToSteps, lines 180-184 of the web-server firmware (identical at
lines 360-368 of Motor_Controller.ino): angle delta times steps-per-degree,
cast to long (truncation toward zero). -/
def degreesToSteps (degrees : ℝ) (harmonicDrive : Bool) (motorIndex : Fin 5) : ℤ :=
  truncToLong (degrees * stepsPerDegree harmonicDrive motorIndex)

end

/-- Steps taken by one joint after a given number of iterations of the
coordinated tick loop, lines 228-236 of the web-server firmware (identical at
lines 325-349 of Motor_Controller.ino): at tick t the joint emits one pulse
exactly when stepsTaken times maxSteps is less than stepsNeeded times t.
The five joints are updated independently inside each tick, so the per-joint
counter is a function of its own stepsNeeded and the shared maxSteps only. -/
def tickLoop (needed maxS : ℕ) : ℕ → ℕ
  | 0 => 0
  | t + 1 =>
    let prev := tickLoop needed maxS t
    if prev * maxS < needed * t then prev + 1 else prev

/-- Result of one moveToPosition call. The source returns void; motionDisabled
models the early return at lines 193-196 (the Serial print Motors disabled),
and completed carries the observables of a full run: the signed step counts,
the tick count maxSteps, and the pulses physically emitted per joint. -/
inductive MoveResult
  | motionDisabled
  | completed (stepsNeeded : Vec5 ℤ) (maxSteps : ℕ) (stepsTaken : Vec5 ℕ)

/-- The mutable state of the scheduler: the global currentPosition array and
the motorsEnabled flag. -/
structure ArmState where
  currentPosition : Vec5 ℝ
  motorsEnabled : Bool

noncomputable section

/-- moveToPosition, lines 192-244 of the web-server firmware (same algorithm
at lines 283-358 of Motor_Controller.ino). Early return when motors are
disabled; otherwise signed step counts per joint (joints 1 and 5 direct
drive, joints 2..4 harmonic), absolute values, maxSteps as the running
maximum starting from 0, the coordinated tick loop, and finally the
unconditional commit of currentPosition to the exact target. -/
def moveToPosition (s : ArmState) (j1 j2 j3 j4 j5 : ℝ) : ArmState × MoveResult :=
  if s.motorsEnabled then
    let targetPos : Vec5 ℝ := ⟨j1, j2, j3, j4, j5⟩
    let sn : Vec5 ℤ :=
      ⟨degreesToSteps (j1 - s.currentPosition.i0) false 0,
       degreesToSteps (j2 - s.currentPosition.i1) true 1,
       degreesToSteps (j3 - s.currentPosition.i2) true 2,
       degreesToSteps (j4 - s.currentPosition.i3) true 3,
       degreesToSteps (j5 - s.currentPosition.i4) false 4⟩
    let na : Vec5 ℕ := ⟨sn.i0.natAbs, sn.i1.natAbs, sn.i2.natAbs, sn.i3.natAbs, sn.i4.natAbs⟩
    let maxSteps : ℕ := ((((Nat.max 0 na.i0).max na.i1).max na.i2).max na.i3).max na.i4
    let taken : Vec5 ℕ :=
      ⟨tickLoop na.i0 maxSteps maxSteps,
       tickLoop na.i1 maxSteps maxSteps,
       tickLoop na.i2 maxSteps maxSteps,
       tickLoop na.i3 maxSteps maxSteps,
       tickLoop na.i4 maxSteps maxSteps⟩
    ({ currentPosition := targetPos, motorsEnabled := s.motorsEnabled },
     .completed sn maxSteps taken)
  else
    (s, .motionDisabled)

end

/-- Safety ceiling MAX_STEPS of the homing seek loop, line 223 of
Homing_Sequence.ino. -/
def MAX_STEPS : ℕ := 50000

/-- Fixed back-off step count, line 250 of Homing_Sequence.ino. The back-off
motion only pulses the motor and is not otherwise observable here. -/
def BACKOFF_STEPS : ℕ := 500

/-- The seek loop of homeAxisWithLimitSwitch, lines 225-233 of
Homing_Sequence.ino: starting from a step count, keep stepping while the
switch reads open and the count is below the ceiling. The switch input is
modelled as a stream sw, where sw k is true when the switch reads triggered
(LOW) after k steps. The fuel argument is the ceiling minus the count. -/
def seekFrom (sw : ℕ → Bool) : ℕ → ℕ → ℕ
  | 0, count => count
  | fuel + 1, count => if sw count then count else seekFrom sw fuel (count + 1)

/-- Step count at which the seek loop of one axis exits. -/
def seekSteps (sw : ℕ → Bool) : ℕ := seekFrom sw MAX_STEPS 0

/-- Observable outcome of homeAxisWithLimitSwitch, lines 215-265 of
Homing_Sequence.ino: the exit step count and whether the early timeout
return at lines 235-238 was taken. The function returns void in the source,
so nothing of this outcome reaches the caller. -/
structure AxisHoming where
  steps : ℕ
  timedOut : Bool
deriving DecidableEq

/-- homeAxisWithLimitSwitch: seek, then either the early timeout return or
the back-off and the log-only post-back-off switch check. -/
def homeAxisWithLimitSwitch (sw : ℕ → Bool) : AxisHoming :=
  let c := seekSteps sw
  if MAX_STEPS ≤ c then ⟨c, true⟩ else ⟨c, false⟩

/-- The homing-sequence state: the global currentPosition array and the
isHomed flag of Homing_Sequence.ino. -/
structure HomingState where
  currentPosition : Vec5 ℝ
  isHomed : Bool

noncomputable section

/-- homeAllAxes, lines 169-213 of Homing_Sequence.ino: homes the shoulder,
elbow and wrist-pitch axes in order against their switch streams, then sets
currentPosition entries 1..3 to the configured joint minima and isHomed to
true. The three per-axis outcomes are returned alongside for observation;
the source discards them (homeAxisWithLimitSwitch is void), so nothing in
the tail of homeAllAxes depends on them. -/
def homeAllAxes (sw1 sw2 sw3 : ℕ → Bool) (s : HomingState) :
    HomingState × AxisHoming × AxisHoming × AxisHoming :=
  let o1 := homeAxisWithLimitSwitch sw1
  let o2 := homeAxisWithLimitSwitch sw2
  let o3 := homeAxisWithLimitSwitch sw3
  ({ currentPosition :=
      { s.currentPosition with i1 := JOINT2_MIN, i2 := JOINT3_MIN, i3 := JOINT4_MIN },
     isHomed := true }, o1, o2, o3)

/-- Zero vector of angles, the initial value of the global arrays. -/
def zeroV : Vec5 ℝ := ⟨0, 0, 0, 0, 0⟩

/-- Demonstration target abscissa: with y = 0, z = 152.5 and pitch = 0 it
puts the wrist center at planar distance 180 times the square root of 3,
giving exact closed-form angles for every intermediate of solveIK. -/
def demoX : ℝ := 101 + 180 * Real.sqrt 3

end

/-- The subtracting loop never exits above 180. -/
theorem wrapDown_le (a : ℝ) : wrapDown a ≤ 180 := by
  induction a using wrapDown.induct with
  | case1 a h ih => rw [wrapDown, if_pos h]; exact ih
  | case2 a h => rw [wrapDown, if_neg h]; linarith

/-- The subtracting loop is the identity at or below 180. -/
theorem wrapDown_eq_self {a : ℝ} (h : a ≤ 180) : wrapDown a = a := by
  rw [wrapDown, if_neg (by linarith)]

/-- The adding loop never exits below minus 180. -/
theorem wrapUp_ge (a : ℝ) : -180 ≤ wrapUp a := by
  induction a using wrapUp.induct with
  | case1 a h ih => rw [wrapUp, if_pos h]; exact ih
  | case2 a h => rw [wrapUp, if_neg h]; linarith

/-- Starting at or below 180, the adding loop stays at or below 180. -/
theorem wrapUp_le {a : ℝ} (h : a ≤ 180) : wrapUp a ≤ 180 := by
  induction a using wrapUp.induct with
  | case1 a h1 ih => rw [wrapUp, if_pos h1]; exact ih (by linarith)
  | case2 a h1 => rw [wrapUp, if_neg h1]; exact h

/-- The adding loop is the identity at or above minus 180. -/
theorem wrapUp_eq_self {a : ℝ} (h : -180 ≤ a) : wrapUp a = a := by
  rw [wrapUp, if_neg (by linarith)]

/-- The combined wrapping of solveIK lands in the closed interval from
minus 180 to 180. -/
theorem wrap180_mem (a : ℝ) : -180 ≤ wrap180 a ∧ wrap180 a ≤ 180 :=
  ⟨wrapUp_ge _, wrapUp_le (wrapDown_le a)⟩

/-- The combined wrapping is the identity on the closed interval. -/
theorem wrap180_eq_self {a : ℝ} (h1 : -180 ≤ a) (h2 : a ≤ 180) : wrap180 a = a := by
  rw [wrap180, wrapDown_eq_self h2, wrapUp_eq_self h1]

/-- atan2 of zero over a positive abscissa is zero. -/
theorem atan2_zero_of_pos {x : ℝ} (hx : 0 < x) : atan2 0 x = 0 := by
  rw [atan2, if_pos hx, zero_div, Real.arctan_zero]

/-- A seek loop whose switch never triggers consumes all its fuel. -/
theorem seekFrom_never {sw : ℕ → Bool} (hsw : ∀ k, sw k = false) :
    ∀ fuel count, seekFrom sw fuel count = count + fuel := by
  intro fuel
  induction fuel with
  | zero => intro count; simp [seekFrom]
  | succ n ih =>
    intro count
    rw [seekFrom, hsw count]
    simp only [Bool.false_eq_true, if_false]
    rw [ih (count + 1)]
    omega

/-- A seek loop whose switch reads triggered from the start exits at once. -/
theorem seekSteps_immediate {sw : ℕ → Bool} (hsw : sw 0 = true) :
    seekSteps sw = 0 := by
  rw [seekSteps, show MAX_STEPS = 49999 + 1 from rfl, seekFrom, hsw]
  simp

theorem sqrt3_sq : Real.sqrt 3 * Real.sqrt 3 = 3 :=
  Real.mul_self_sqrt (by norm_num)

theorem sqrt3_le_two : Real.sqrt 3 ≤ 2 := by
  have h4 : Real.sqrt 4 = 2 := by
    rw [show (4 : ℝ) = 2 ^ 2 by norm_num, Real.sqrt_sq (by norm_num)]
  have := Real.sqrt_le_sqrt (show (3 : ℝ) ≤ 4 by norm_num)
  linarith

theorem sqrt3_pos : 0 < Real.sqrt 3 := Real.sqrt_pos.mpr (by norm_num)

theorem demoX_pos : 0 < demoX := by
  rw [demoX]; positivity

theorem wcX_demo : wcX demoX 0 0 = 180 * Real.sqrt 3 := by
  rw [wcX, atan2_zero_of_pos demoX_pos, demoX]
  norm_num [L4, Real.cos_zero]

theorem wcY_demo : wcY demoX 0 0 = 0 := by
  rw [wcY, atan2_zero_of_pos demoX_pos]
  norm_num [Real.sin_zero]

theorem hDist_demo : hDist 152.5 0 = 0 := by
  norm_num [hDist, wcZ, L1, Real.sin_zero]

theorem rDist_demo : rDist demoX 0 0 = 180 * Real.sqrt 3 := by
  have h : wcX demoX 0 0 * wcX demoX 0 0 + wcY demoX 0 0 * wcY demoX 0 0 =
      (180 * Real.sqrt 3) ^ 2 := by
    rw [wcX_demo, wcY_demo]; ring
  rw [rDist, h, Real.sqrt_sq (by positivity)]

theorem dDist_demo : dDist demoX 0 152.5 0 = 180 * Real.sqrt 3 := by
  have h : rDist demoX 0 0 * rDist demoX 0 0 + hDist 152.5 0 * hDist 152.5 0 =
      (180 * Real.sqrt 3) ^ 2 := by
    rw [rDist_demo, hDist_demo]; ring
  rw [dDist, h, Real.sqrt_sq (by positivity)]

theorem cos_angle2_demo : cos_angle2 demoX 0 152.5 0 = Real.sqrt 3 / 2 := by
  rw [cos_angle2, dDist_demo]
  rw [show L2 = (180 : ℝ) from by norm_num [L2], show L3 = (180 : ℝ) from by norm_num [L3]]
  rw [div_eq_iff (by positivity)]
  ring

theorem angle2_demo : angle2 demoX 0 152.5 0 = Real.pi / 6 := by
  rw [angle2, cos_angle2_demo, ← Real.cos_pi_div_six,
    Real.arccos_cos (by positivity) (by linarith [Real.pi_pos])]

theorem alphaAng_demo : alphaAng demoX 0 152.5 0 = 0 := by
  rw [alphaAng, hDist_demo, rDist_demo]
  exact atan2_zero_of_pos (by positivity)

theorem theta2_up_demo : theta2_up demoX 0 152.5 0 = 30 := by
  rw [theta2_up, alphaAng_demo, angle2_demo, RAD_TO_DEG]
  field_simp
  ring

theorem cos_angle3_demo : cos_angle3 demoX 0 152.5 0 = -(1 / 2) := by
  rw [cos_angle3, dDist_demo]
  rw [show L2 = (180 : ℝ) from by norm_num [L2], show L3 = (180 : ℝ) from by norm_num [L3]]
  rw [div_eq_iff (by norm_num)]
  linear_combination (-32400 : ℝ) * sqrt3_sq


theorem arccos_neg_half : Real.arccos (-(1 / 2)) = 2 * Real.pi / 3 := by
  have hc : Real.cos (Real.pi - Real.pi / 3) = -(1 / 2) := by
    rw [Real.cos_pi_sub, Real.cos_pi_div_three]
  have h := Real.arccos_cos (x := Real.pi - Real.pi / 3)
    (by linarith [Real.pi_pos]) (by linarith [Real.pi_pos])
  rw [hc] at h
  rw [h]; ring

theorem theta3_up_demo : theta3_up demoX 0 152.5 0 = 60 := by
  rw [theta3_up, cos_angle3_demo, arccos_neg_half, RAD_TO_DEG]
  field_simp
  ring

theorem theta4_up_demo : theta4_up demoX 0 152.5 0 = 30 := by
  rw [theta4_up, theta2_up_demo, theta3_up_demo]
  norm_num

theorem elbowUpValid_demo : elbowUpValid demoX 0 152.5 0 := by
  rw [elbowUpValid, theta2_up_demo, theta3_up_demo, theta4_up_demo]
  norm_num [JOINT2_MIN, JOINT2_MAX, JOINT3_MIN, JOINT3_MAX, JOINT4_MIN, JOINT4_MAX]

theorem dist_ok_demo : |L2 - L3| ≤ dDist demoX 0 152.5 0 ∧ dDist demoX 0 152.5 0 ≤ L2 + L3 := by
  rw [dDist_demo]
  constructor
  · rw [show L2 - L3 = (0 : ℝ) from by norm_num [L2, L3]]
    simp
    try positivity
  · rw [show L2 + L3 = (360 : ℝ) from by norm_num [L2, L3]]
    nlinarith [sqrt3_le_two]

theorem cos2_ok_demo : -1 ≤ cos_angle2 demoX 0 152.5 0 ∧ cos_angle2 demoX 0 152.5 0 ≤ 1 := by
  rw [cos_angle2_demo]
  constructor
  · nlinarith [sqrt3_pos]
  · nlinarith [sqrt3_le_two]

theorem cos3_ok_demo : -1 ≤ cos_angle3 demoX 0 152.5 0 ∧ cos_angle3 demoX 0 152.5 0 ≤ 1 := by
  rw [cos_angle3_demo]; norm_num

/-- Full evaluation of solveIK at the demonstration pose: the elbow-up branch
is taken and the returned angles are 0, 30, 60, 30 and the wrapped roll. -/
theorem solveIK_demo (s : Vec5 ℝ) (roll : ℝ) :
    solveIK s demoX 0 152.5 0 roll =
      ⟨⟨0, 30, 60, 30, wrap180 roll⟩, true, none⟩ := by
  simp only [solveIK]
  rw [if_neg, if_neg, if_neg, if_pos elbowUpValid_demo]
  · rw [Vec5.map, atan2_zero_of_pos demoX_pos, theta2_up_demo, theta3_up_demo, theta4_up_demo]
    have h0 : wrap180 (0 * RAD_TO_DEG) = 0 := by
      rw [zero_mul]; exact wrap180_eq_self (by norm_num) (by norm_num)
    rw [h0, show wrap180 (30 : ℝ) = 30 from wrap180_eq_self (by norm_num) (by norm_num),
      show wrap180 (60 : ℝ) = 60 from wrap180_eq_self (by norm_num) (by norm_num)]
  · push_neg
    exact ⟨by rw [cos_angle3_demo]; norm_num, by rw [cos_angle3_demo]; norm_num⟩
  · push_neg
    refine ⟨?_, ?_⟩
    · have := cos2_ok_demo.1; linarith
    · have := cos2_ok_demo.2; linarith
  · push_neg
    exact ⟨dist_ok_demo.2, dist_ok_demo.1⟩

theorem wcX_far : wcX 1000 0 0 = 899 := by
  rw [wcX, atan2_zero_of_pos (by norm_num : (0 : ℝ) < 1000)]
  norm_num [L4, Real.cos_zero]

theorem wcY_far : wcY 1000 0 0 = 0 := by
  rw [wcY, atan2_zero_of_pos (by norm_num : (0 : ℝ) < 1000)]
  norm_num [Real.sin_zero]

theorem hDist_far : hDist 0 0 = -152.5 := by
  norm_num [hDist, wcZ, L1, Real.sin_zero]

theorem rDist_far : rDist 1000 0 0 = 899 := by
  have h : wcX 1000 0 0 * wcX 1000 0 0 + wcY 1000 0 0 * wcY 1000 0 0 = (899 : ℝ) ^ 2 := by
    rw [wcX_far, wcY_far]; norm_num
  rw [rDist, h, Real.sqrt_sq (by norm_num)]

/-- At the far target (1000, 0, 0) the shoulder-to-wrist-center distance
exceeds the reach L2 plus L3. -/
theorem dDist_far_gt : dDist 1000 0 0 0 > L2 + L3 := by
  rw [dDist, rDist_far, hDist_far, show L2 + L3 = (360 : ℝ) from by norm_num [L2, L3]]
  exact (Real.lt_sqrt (by norm_num)).mpr (by norm_num)

/-- Full evaluation of solveIK at (1000, 0, 0, 0, 0): the unreachable branch
is taken and only entry 0 of theta is overwritten. -/
theorem solveIK_far (s : Vec5 ℝ) :
    solveIK s 1000 0 0 0 0 =
      ⟨{ s with i0 := 0 }, false, some IKErr.unreachable⟩ := by
  simp only [solveIK]
  rw [if_pos (Or.inl dDist_far_gt), atan2_zero_of_pos (by norm_num : (0 : ℝ) < 1000), zero_mul]

/-- Truncation toward zero of a real that happens to be an integer. -/
theorem truncToLong_eval (r : ℝ) (n : ℤ) (h : r = n) : truncToLong r = n := by
  subst h
  rw [truncToLong]
  split_ifs <;> simp

/-- Truncation toward zero of anything of magnitude below one is zero. -/
theorem truncToLong_eq_zero {r : ℝ} (h : |r| < 1) : truncToLong r = 0 := by
  rw [abs_lt] at h
  rw [truncToLong]
  split_ifs with hs
  · exact Int.floor_eq_zero_iff.mpr ⟨hs, h.2⟩
  · exact Int.ceil_eq_zero_iff.mpr ⟨by linarith, by linarith⟩

@[simp] theorem Vec5.get_zero {α : Type} (v : Vec5 α) : v.get 0 = v.i0 := rfl

@[simp] theorem Vec5.get_one {α : Type} (v : Vec5 α) : v.get 1 = v.i1 := rfl

@[simp] theorem Vec5.get_two {α : Type} (v : Vec5 α) : v.get 2 = v.i2 := rfl

@[simp] theorem Vec5.get_three {α : Type} (v : Vec5 α) : v.get 3 = v.i3 := rfl

@[simp] theorem Vec5.get_four {α : Type} (v : Vec5 α) : v.get 4 = v.i4 := rfl

/-- Claim C6: with motors disabled, moveToPosition performs no motion,
reports the disabled outcome, and leaves the state untouched. This is the
early return at lines 193-196 of the web-server firmware and lines 284-287
of Motor_Controller.ino. -/
theorem C6_motion_disabled_noop (s : ArmState) (j1 j2 j3 j4 j5 : ℝ)
    (h : s.motorsEnabled = false) :
    moveToPosition s j1 j2 j3 j4 j5 = (s, MoveResult.motionDisabled) := by
  simp [moveToPosition, h]

/-- Witness for C6 at a concrete disabled state and target. -/
theorem C6_witness :
    (ArmState.mk zeroV false).motorsEnabled = false ∧
    moveToPosition ⟨zeroV, false⟩ 1 2 3 4 5 = (⟨zeroV, false⟩, MoveResult.motionDisabled) :=
  ⟨rfl, C6_motion_disabled_noop ⟨zeroV, false⟩ 1 2 3 4 5 rfl⟩

/-- Claim C7: a move that runs with motors enabled always commits the stored
current position to the exact requested target for all five joints, whatever
the emitted pulse counts were — lines 238-241 of the web-server firmware. -/
theorem C7_completion_commits_exact_target (s : ArmState) (j1 j2 j3 j4 j5 : ℝ)
    (h : s.motorsEnabled = true) :
    ∃ sn maxS taken,
      moveToPosition s j1 j2 j3 j4 j5 =
        (⟨⟨j1, j2, j3, j4, j5⟩, true⟩, MoveResult.completed sn maxS taken) := by
  simp only [moveToPosition, h, if_true]
  exact ⟨_, _, _, rfl⟩

/-- Witness for C7 at a concrete enabled state and target. -/
theorem C7_witness :
    (ArmState.mk zeroV true).motorsEnabled = true ∧
    ∃ sn maxS taken,
      moveToPosition ⟨zeroV, true⟩ 5 6 7 8 9 =
        (⟨⟨5, 6, 7, 8, 9⟩, true⟩, MoveResult.completed sn maxS taken) :=
  ⟨rfl, C7_completion_commits_exact_target ⟨zeroV, true⟩ 5 6 7 8 9 rfl⟩

/-- Claim C10: when every joint delta converts to strictly less than one
step, the long cast truncates all step counts to zero, the tick loop runs
zero iterations and emits no pulses, yet the stored position is still
committed to the exact target with a completed outcome — lines 180-184 and
198-244 of the web-server firmware. -/
theorem C10_subdegree_move_silently_commits (s : ArmState) (j1 j2 j3 j4 j5 : ℝ)
    (hen : s.motorsEnabled = true)
    (h1 : |(j1 - s.currentPosition.i0) * stepsPerDegree false 0| < 1)
    (h2 : |(j2 - s.currentPosition.i1) * stepsPerDegree true 1| < 1)
    (h3 : |(j3 - s.currentPosition.i2) * stepsPerDegree true 2| < 1)
    (h4 : |(j4 - s.currentPosition.i3) * stepsPerDegree true 3| < 1)
    (h5 : |(j5 - s.currentPosition.i4) * stepsPerDegree false 4| < 1) :
    moveToPosition s j1 j2 j3 j4 j5 =
      (⟨⟨j1, j2, j3, j4, j5⟩, true⟩,
        MoveResult.completed ⟨0, 0, 0, 0, 0⟩ 0 ⟨0, 0, 0, 0, 0⟩) := by
  have e1 : degreesToSteps (j1 - s.currentPosition.i0) false 0 = 0 := truncToLong_eq_zero h1
  have e2 : degreesToSteps (j2 - s.currentPosition.i1) true 1 = 0 := truncToLong_eq_zero h2
  have e3 : degreesToSteps (j3 - s.currentPosition.i2) true 2 = 0 := truncToLong_eq_zero h3
  have e4 : degreesToSteps (j4 - s.currentPosition.i3) true 3 = 0 := truncToLong_eq_zero h4
  have e5 : degreesToSteps (j5 - s.currentPosition.i4) false 4 = 0 := truncToLong_eq_zero h5
  simp [moveToPosition, hen, e1, e2, e3, e4, e5, tickLoop]

/-- Witness for C10: a move of a thousandth of a degree on every joint. -/
theorem C10_witness :
    (ArmState.mk zeroV true).motorsEnabled = true ∧
    |((0.001 : ℝ) - zeroV.i0) * stepsPerDegree false 0| < 1 ∧
    |((0.001 : ℝ) - zeroV.i1) * stepsPerDegree true 1| < 1 ∧
    moveToPosition ⟨zeroV, true⟩ 0.001 0.001 0.001 0.001 0.001 =
      (⟨⟨0.001, 0.001, 0.001, 0.001, 0.001⟩, true⟩,
        MoveResult.completed ⟨0, 0, 0, 0, 0⟩ 0 ⟨0, 0, 0, 0, 0⟩) := by
  have hd : |((0.001 : ℝ) - zeroV.i0) * stepsPerDegree false 0| < 1 := by
    norm_num [zeroV, stepsPerDegree, currentMicrosteps, STEPS_PER_REV, abs_lt]
  have hh : |((0.001 : ℝ) - zeroV.i1) * stepsPerDegree true 1| < 1 := by
    norm_num [zeroV, stepsPerDegree, currentMicrosteps, STEPS_PER_REV,
      HARMONIC_REDUCTION, abs_lt]
  have hh2 : |((0.001 : ℝ) - zeroV.i2) * stepsPerDegree true 2| < 1 := by
    norm_num [zeroV, stepsPerDegree, currentMicrosteps, STEPS_PER_REV,
      HARMONIC_REDUCTION, abs_lt]
  have hh3 : |((0.001 : ℝ) - zeroV.i3) * stepsPerDegree true 3| < 1 := by
    norm_num [zeroV, stepsPerDegree, currentMicrosteps, STEPS_PER_REV,
      HARMONIC_REDUCTION, abs_lt]
  have hd4 : |((0.001 : ℝ) - zeroV.i4) * stepsPerDegree false 4| < 1 := by
    norm_num [zeroV, stepsPerDegree, currentMicrosteps, STEPS_PER_REV, abs_lt]
  exact ⟨rfl, hd, hh,
    C10_subdegree_move_silently_commits ⟨zeroV, true⟩ 0.001 0.001 0.001 0.001 0.001
      rfl hd hh hh2 hh3 hd4⟩

/-- Claim C1: evaluation of the coordinated scheduler at a move that needs
exactly one step on joint 0 and none elsewhere (a 0.1125 degree base move at
16 microsteps is exactly one microstep). The step count is 1 and the loop
runs maxSteps = 1 tick, but the emitted pulse count is 0, not 1: at the only
tick t = 0 the emission test stepsTaken times maxSteps less than stepsNeeded
times t compares 0 less than 0 and fails. The dominant axis of every move
loses one pulse this way, yet line 240 still commits the exact target. -/
theorem C1_one_step_move_emits_no_pulse :
    moveToPosition ⟨zeroV, true⟩ 0.1125 0 0 0 0 =
      (⟨⟨0.1125, 0, 0, 0, 0⟩, true⟩,
        MoveResult.completed ⟨1, 0, 0, 0, 0⟩ 1 ⟨0, 0, 0, 0, 0⟩) := by
  have e1 : degreesToSteps (0.1125 : ℝ) false 0 = 1 :=
    truncToLong_eval _ 1
      (by norm_num [stepsPerDegree, currentMicrosteps, STEPS_PER_REV])
  have e2 : ∀ b i, degreesToSteps (0 : ℝ) b i = 0 := fun b i =>
    truncToLong_eval _ 0 (by norm_num)
  simp [moveToPosition, zeroV, e1, e2, tickLoop]

/-- Claim C2: a homing run in which the shoulder switch never triggers. The
seek loop does abort at the 50000-step ceiling, but homeAllAxes still
overwrites all three homed-joint positions with their configured minima and
still sets isHomed to true, because homeAxisWithLimitSwitch returns void and
lines 197-210 of Homing_Sequence.ino run unconditionally. -/
theorem C2_homing_timeout_still_sets_homed :
    (homeAllAxes (fun _ => false) (fun _ => true) (fun _ => true) ⟨zeroV, false⟩).2.1 =
      ⟨MAX_STEPS, true⟩ ∧
    (homeAllAxes (fun _ => false) (fun _ => true) (fun _ => true) ⟨zeroV, false⟩).1.isHomed =
      true ∧
    (homeAllAxes (fun _ => false) (fun _ => true) (fun _ => true) ⟨zeroV, false⟩).1.currentPosition =
      ⟨0, JOINT2_MIN, JOINT3_MIN, JOINT4_MIN, 0⟩ := by
  have hseek : seekSteps (fun _ => false) = MAX_STEPS := by
    rw [seekSteps, seekFrom_never (fun k => rfl) MAX_STEPS 0, zero_add]
  have h1 : homeAxisWithLimitSwitch (fun _ => false) = ⟨MAX_STEPS, true⟩ := by
    rw [homeAxisWithLimitSwitch, hseek, if_pos (le_refl _)]
  refine ⟨?_, ?_, ?_⟩ <;> simp [homeAllAxes, h1, zeroV]

/-- Claim C3: solveIK reports the unreachable failure exactly when the
shoulder-to-wrist-center distance d lies outside the closed interval from
the absolute difference of L2 and L3 to their sum (lines 260-263), and in
particular the pose (1000, 0, 0, 0, 0) is rejected as unreachable. -/
theorem C3_unreachable_iff_distance (s : Vec5 ℝ) (x y z pitch roll : ℝ) :
    ((solveIK s x y z pitch roll).lastSolveError = some IKErr.unreachable ↔
      ¬(|L2 - L3| ≤ dDist x y z pitch ∧ dDist x y z pitch ≤ L2 + L3)) ∧
    (solveIK s 1000 0 0 0 0).lastSolveError = some IKErr.unreachable := by
  constructor
  · simp only [solveIK]
    split_ifs with h1 h2 h3 h4 h5
    · refine iff_of_true rfl fun hc => ?_
      rcases h1 with h | h
      · linarith [hc.2]
      · linarith [hc.1]
    all_goals {
      push_neg at h1
      exact iff_of_false (by simp) (not_not_intro ⟨h1.2, h1.1⟩) }
  · rw [solveIK_far]

/-- Claim C4: past the distance and both cosine-domain checks, solveIK
returns the elbow-up candidate whenever it satisfies the joint limits, the
elbow-down candidate only when elbow-up fails and elbow-down passes, and
fails with the joint-limit classification exactly when neither candidate
passes — lines 274-312 of the web-server firmware. -/
theorem C4_elbow_up_preference (s : Vec5 ℝ) (x y z pitch roll : ℝ)
    (hd : |L2 - L3| ≤ dDist x y z pitch ∧ dDist x y z pitch ≤ L2 + L3)
    (h2 : -1 ≤ cos_angle2 x y z pitch ∧ cos_angle2 x y z pitch ≤ 1)
    (h3 : -1 ≤ cos_angle3 x y z pitch ∧ cos_angle3 x y z pitch ≤ 1) :
    (elbowUpValid x y z pitch →
      solveIK s x y z pitch roll =
        ⟨Vec5.map wrap180 ⟨atan2 y x * RAD_TO_DEG, theta2_up x y z pitch,
          theta3_up x y z pitch, theta4_up x y z pitch, roll⟩, true, none⟩) ∧
    (¬elbowUpValid x y z pitch → elbowDownValid x y z pitch →
      solveIK s x y z pitch roll =
        ⟨Vec5.map wrap180 ⟨atan2 y x * RAD_TO_DEG, theta2_down x y z pitch,
          theta3_down x y z pitch, theta4_down x y z pitch, roll⟩, true, none⟩) ∧
    ((solveIK s x y z pitch roll).lastSolveError = some IKErr.jointLimitExceeded ↔
      ¬elbowUpValid x y z pitch ∧ ¬elbowDownValid x y z pitch) := by
  have hA : ¬(dDist x y z pitch > (L2 + L3) ∨ dDist x y z pitch < |L2 - L3|) := by
    push_neg
    exact ⟨hd.2, hd.1⟩
  have hB : ¬(cos_angle2 x y z pitch < -1.0 ∨ cos_angle2 x y z pitch > 1.0) := by
    push_neg
    constructor
    · linarith [h2.1]
    · linarith [h2.2]
  have hC : ¬(cos_angle3 x y z pitch < -1.0 ∨ cos_angle3 x y z pitch > 1.0) := by
    push_neg
    constructor
    · linarith [h3.1]
    · linarith [h3.2]
  simp only [solveIK, if_neg hA, if_neg hB, if_neg hC]
  split_ifs with hu hdn
  · exact ⟨fun _ => rfl, fun h _ => absurd hu h, by simp [hu]⟩
  · exact ⟨fun h => absurd h hu, fun _ _ => rfl, by simp [hu, hdn]⟩
  · exact ⟨fun h => absurd h hu, fun _ h => absurd h hdn, by simp [hu, hdn]⟩

/-- Witness for C4 at the demonstration pose: all three gate checks pass,
elbow-up is valid, and the theorem yields the elbow-up return. -/
theorem C4_witness :
    ((|L2 - L3| ≤ dDist demoX 0 152.5 0 ∧ dDist demoX 0 152.5 0 ≤ L2 + L3) ∧
      elbowUpValid demoX 0 152.5 0) ∧
    solveIK zeroV demoX 0 152.5 0 0 =
      ⟨Vec5.map wrap180 ⟨atan2 0 demoX * RAD_TO_DEG, theta2_up demoX 0 152.5 0,
        theta3_up demoX 0 152.5 0, theta4_up demoX 0 152.5 0, 0⟩, true, none⟩ :=
  ⟨⟨dist_ok_demo, elbowUpValid_demo⟩,
    (C4_elbow_up_preference zeroV demoX 0 152.5 0 0 dist_ok_demo cos2_ok_demo cos3_ok_demo).1
      elbowUpValid_demo⟩

/-- Claim C5 counterexample: a successful solve whose requested roll is
minus 180 returns a wrist-roll angle of exactly minus 180, which is outside
the half-open interval claimed (strictly above minus 180): the wrapping
loops at lines 316-319 leave minus 180 unchanged. -/
theorem C5_counterexample :
    (solveIK zeroV demoX 0 152.5 0 (-180)).success = true ∧
    (solveIK zeroV demoX 0 152.5 0 (-180)).theta.i4 = -180 ∧
    ¬(-180 < (solveIK zeroV demoX 0 152.5 0 (-180)).theta.i4) := by
  have h := solveIK_demo zeroV (-180)
  have hw : wrap180 (-180 : ℝ) = -180 := wrap180_eq_self (le_refl _) (by norm_num)
  rw [h]
  refine ⟨rfl, hw, ?_⟩
  simp only [hw]
  norm_num

/-- Indexing commutes with the component-wise map. -/
theorem Vec5.get_map {α β : Type} (f : α → β) (v : Vec5 α) (i : Fin 5) :
    (v.map f).get i = f (v.get i) := by
  fin_cases i <;> rfl

/-- Every successful solveIK return passes its whole angle vector through
the wrapping loops. -/
theorem solveIK_success_shape (s : Vec5 ℝ) (x y z pitch roll : ℝ)
    (h : (solveIK s x y z pitch roll).success = true) :
    ∃ v : Vec5 ℝ, (solveIK s x y z pitch roll).theta = Vec5.map wrap180 v := by
  simp only [solveIK] at h ⊢
  split_ifs at h ⊢ <;> exact ⟨_, rfl⟩

/-- Claim C5 as amended: every angle returned by a successful solve lies in
the closed interval from minus 180 to 180 (the value minus 180 itself is
attainable, so the interval is closed on both ends, not half-open). -/
theorem C5_amended_closed_interval (s : Vec5 ℝ) (x y z pitch roll : ℝ)
    (h : (solveIK s x y z pitch roll).success = true) :
    ∀ i : Fin 5, -180 ≤ (solveIK s x y z pitch roll).theta.get i ∧
      (solveIK s x y z pitch roll).theta.get i ≤ 180 := by
  intro i
  obtain ⟨v, hv⟩ := solveIK_success_shape s x y z pitch roll h
  rw [hv, Vec5.get_map]
  exact wrap180_mem _

/-- Witness for C5 as amended, at the demonstration pose. -/
theorem C5_witness :
    (solveIK zeroV demoX 0 152.5 0 0).success = true ∧
    (∀ i : Fin 5, -180 ≤ (solveIK zeroV demoX 0 152.5 0 0).theta.get i ∧
      (solveIK zeroV demoX 0 152.5 0 0).theta.get i ≤ 180) :=
  ⟨by rw [solveIK_demo], C5_amended_closed_interval zeroV demoX 0 152.5 0 0
    (by rw [solveIK_demo])⟩

/-- Claim C8: the solver is deterministic in the sense of the specification
test of calling it twice with identical input: the second call, starting
from the theta state the first call produced, returns the identical success
flag, error classification and five angles. All branch conditions of solveIK
depend only on the pose input, and each branch writes theta entries that are
functions of the input alone, so the repeated call reproduces the first one
exactly. -/
theorem C8_solve_deterministic_repeat (s : Vec5 ℝ) (x y z pitch roll : ℝ) :
    solveIK (solveIK s x y z pitch roll).theta x y z pitch roll =
      solveIK s x y z pitch roll := by
  simp only [solveIK]
  split_ifs <;> rfl

/-- Claim C9: solveIK writes the base angle into theta entry 0 before any
failure check (line 250), so on every failing call the returned theta is the
new base angle followed by the four entries left from before the call, and
the solve handler serializes exactly this mixed vector (lines 1311-1324). -/
theorem C9_failure_keeps_stale_angles (s : Vec5 ℝ) (x y z pitch roll : ℝ)
    (h : (solveIK s x y z pitch roll).success = false) :
    (solveIK s x y z pitch roll).theta =
      ⟨atan2 y x * RAD_TO_DEG, s.i1, s.i2, s.i3, s.i4⟩ ∧
    (handleSolve s x y z pitch roll).angles =
      ⟨atan2 y x * RAD_TO_DEG, s.i1, s.i2, s.i3, s.i4⟩ := by
  have hh : (handleSolve s x y z pitch roll).angles = (solveIK s x y z pitch roll).theta :=
    rfl
  rw [hh, and_self]
  simp only [solveIK] at h ⊢
  split_ifs at h ⊢ <;> rfl

/-- Witness for C9: the unreachable pose (1000, 0, 0, 0, 0) called on a
previous theta of (7, 8, 9, 10, 11) fails and leaves (0, 8, 9, 10, 11). -/
theorem C9_witness :
    (solveIK ⟨7, 8, 9, 10, 11⟩ 1000 0 0 0 0).success = false ∧
    (solveIK ⟨7, 8, 9, 10, 11⟩ 1000 0 0 0 0).theta = ⟨0, 8, 9, 10, 11⟩ ∧
    (handleSolve ⟨7, 8, 9, 10, 11⟩ 1000 0 0 0 0).angles = ⟨0, 8, 9, 10, 11⟩ := by
  have hfail : (solveIK ⟨7, 8, 9, 10, 11⟩ 1000 0 0 0 0).success = false := by
    rw [solveIK_far]
  have hz : atan2 0 1000 * RAD_TO_DEG = 0 := by
    rw [atan2_zero_of_pos (by norm_num : (0 : ℝ) < 1000), zero_mul]
  have hmain := C9_failure_keeps_stale_angles ⟨7, 8, 9, 10, 11⟩ 1000 0 0 0 0 hfail
  rw [hz] at hmain
  exact ⟨hfail, hmain.1, hmain.2⟩
